import Mathlib

/-!
Shallow embedding of the Stream-Schedule backend (`src/backend/app.py`).

The backend is a set of Flask HTTP handlers over two SQLAlchemy tables
(`User`, `ScheduledContent`).  We embed the two tables as Lean structures,
the database as explicit lists of rows, and each handler as a pure function
from the request data and the pre-state to the post-state and a response.

JSON request bodies are embedded as association lists from string keys to
string values; `pget data k` is Python's `data.get(k)` (returning `none`
when the key is absent) and `(pget data k).getD d` is `data.get(k, d)`.
`datetime.fromisoformat` belongs to the Python standard library, not to
this repository, so handlers that parse timestamps take an abstract
`parse : String → Option Int` argument; `parse s = none` models the
`ValueError` the library raises on a malformed timestamp, which the
handlers do not catch.
-/

namespace StreamSchedule

/-- A JSON object body: keys mapped to string values. -/
abbrev Payload := List (String × String)

/-- Python's `data.get(k)`: value of the first binding of key `k`, if any. -/
def pget (data : Payload) (k : String) : Option String :=
  (data.find? (fun kv => kv.1 == k)).map (fun kv => kv.2)

/-- Row of the `User` table (`app.py` lines 22-33). -/
structure User where
  id : Nat
  username : String
  email : String
  password_hash : String
  twitch_token : Option String := none
  twitter_token : Option String := none
  instagram_token : Option String := none
  discord_token : Option String := none
  created_at : Nat := 0
deriving DecidableEq, Repr

/-- Row of the `ScheduledContent` table (`app.py` lines 35-47). -/
structure ScheduledContent where
  id : Nat
  title : String
  content : String
  content_type : String := "text"
  platforms : String := "[]"
  scheduled_for : Int
  hashtags : Option String := none
  mentions : Option String := none
  files : String := "[]"
  status : String := "pending"
  user_id : Nat
  created_at : Nat := 0
deriving DecidableEq, Repr

/-- The relational store: the two tables plus autoincrement counters. -/
structure DB where
  users : List User := []
  contents : List ScheduledContent := []
  nextUserId : Nat := 1
  nextContentId : Nat := 1
deriving DecidableEq, Repr

/-- Outcome of `register` (201 success, or 400 with a duplicate-field error). -/
inductive RegisterRes where
  | ok
  | usernameExists
  | emailExists
deriving DecidableEq, Repr

/-- `register` handler (`app.py` lines 58-77): duplicate username, then
duplicate email are checked with `.first()`; otherwise the user is inserted
with the password stored verbatim in `password_hash`. -/
def register (username email password : String) (now : Nat) (db : DB) :
    DB × RegisterRes :=
  if (db.users.find? (fun u => u.username == username)).isSome then
    (db, .usernameExists)
  else if (db.users.find? (fun u => u.email == email)).isSome then
    (db, .emailExists)
  else
    let user : User :=
      { id := db.nextUserId, username := username, email := email,
        password_hash := password, created_at := now }
    ({ db with users := db.users ++ [user], nextUserId := db.nextUserId + 1 },
      .ok)

/-- `login` handler (`app.py` lines 79-95): looks up the first user with the
given username and compares the stored credential for exact equality.
Returns the id the session gets bound to (`login_user`), or `none` for the
401 response. -/
def login (username password : String) (db : DB) : Option Nat :=
  match db.users.find? (fun u => u.username == username) with
  | some user => if user.password_hash == password then some user.id else none
  | none => none

/-- Python truthiness of a nullable text column: `bool(None)` and `bool("")`
are `False`, any non-empty string is `True`. -/
def pyBool : Option String → Bool
  | none => false
  | some s => !(s == "")

/-- Body of the `/api/auth/profile` response. -/
structure Profile where
  id : Nat
  username : String
  email : String
  twitch : Bool
  twitter : Bool
  instagram : Bool
  discord : Bool
deriving DecidableEq, Repr

/-- `get_profile` handler (`app.py` lines 103-116): each connected flag is
`bool(<token column>)`. -/
def get_profile (u : User) : Profile :=
  { id := u.id, username := u.username, email := u.email,
    twitch := pyBool u.twitch_token,
    twitter := pyBool u.twitter_token,
    instagram := pyBool u.instagram_token,
    discord := pyBool u.discord_token }

/-- Reads the connected flag of the named platform out of a profile body. -/
def platformFlag (p : Profile) (platform : String) : Bool :=
  if platform == "twitch" then p.twitch
  else if platform == "twitter" then p.twitter
  else if platform == "instagram" then p.instagram
  else if platform == "discord" then p.discord
  else false

/-- Comparator of `order_by(ScheduledContent.scheduled_for.desc())`. -/
def contentDesc (a b : ScheduledContent) : Bool :=
  b.scheduled_for ≤ a.scheduled_for

/-- `get_content` handler (`app.py` lines 118-135): the authenticated user's
rows, ordered by `scheduled_for` descending. -/
def get_content (uid : Nat) (db : DB) : List ScheduledContent :=
  (db.contents.filter (fun c => c.user_id == uid)).mergeSort contentDesc

/-- Outcome of `create_content`: 201 with the new id, or an uncaught
`KeyError`/`ValueError` surfacing as a generic 500. -/
inductive CreateRes where
  | created (id : Nat)
  | serverError
deriving DecidableEq, Repr

/-- `create_content` handler (`app.py` lines 137-160): `data['title']`,
`data['content']` and `data['scheduled_for']` raise `KeyError` when absent,
`datetime.fromisoformat` raises on a malformed timestamp; otherwise a row is
inserted with the stated column defaults and its id returned. -/
def create_content (parse : String → Option Int) (uid : Nat) (data : Payload)
    (now : Nat) (db : DB) : DB × CreateRes :=
  match pget data "title", pget data "content", pget data "scheduled_for" with
  | some title, some content, some sf =>
    match parse sf with
    | some ts =>
      let row : ScheduledContent :=
        { id := db.nextContentId,
          title := title,
          content := content,
          content_type := (pget data "content_type").getD "text",
          platforms := (pget data "platforms").getD "[]",
          scheduled_for := ts,
          hashtags := pget data "hashtags",
          mentions := pget data "mentions",
          files := (pget data "files").getD "[]",
          status := "pending",
          user_id := uid,
          created_at := now }
      ({ db with contents := db.contents ++ [row],
                 nextContentId := db.nextContentId + 1 },
        .created row.id)
    | none => (db, .serverError)
  | _, _, _ => (db, .serverError)

/-- Outcome of `update_content`: 200, 404, or an uncaught `ValueError` from
a malformed `scheduled_for` surfacing as a generic 500. -/
inductive UpdateRes where
  | ok
  | notFound
  | serverError
deriving DecidableEq, Repr

/-- The `filter_by(id=content_id, user_id=current_user.id)` predicate. -/
def ownedBy (cid uid : Nat) (c : ScheduledContent) : Bool :=
  c.id == cid && c.user_id == uid

/-- The field assignments of `update_content` (`app.py` lines 172-179): each
column is overwritten with `data.get(key, <current value>)`; `ts` is the
already-parsed `scheduled_for` (the current value when the key is absent). -/
def applyFields (data : Payload) (ts : Int) (c : ScheduledContent) :
    ScheduledContent :=
  { c with
    title := (pget data "title").getD c.title,
    content := (pget data "content").getD c.content,
    content_type := (pget data "content_type").getD c.content_type,
    platforms := (pget data "platforms").getD c.platforms,
    scheduled_for := ts,
    hashtags := match pget data "hashtags" with
      | some s => some s
      | none => c.hashtags,
    mentions := match pget data "mentions" with
      | some s => some s
      | none => c.mentions,
    files := (pget data "files").getD c.files }

/-- Replaces the first element satisfying `p` (the object `.first()` returned
and the handler mutated) by `a`, leaving every other row untouched. -/
def replaceFirst (p : α → Bool) (a : α) : List α → List α
  | [] => []
  | x :: xs => if p x then a :: xs else x :: replaceFirst p a xs

/-- `update_content` handler (`app.py` lines 162-183): 404 when no row with
that id is owned by the authenticated user; otherwise the found row is
mutated field by field and committed.  A present but malformed
`scheduled_for` raises before the commit, so the store is unchanged. -/
def update_content (parse : String → Option Int) (uid cid : Nat)
    (data : Payload) (db : DB) : DB × UpdateRes :=
  match db.contents.find? (ownedBy cid uid) with
  | none => (db, .notFound)
  | some c =>
    match pget data "scheduled_for" with
    | some sf =>
      match parse sf with
      | some ts =>
        let cs := replaceFirst (ownedBy cid uid) (applyFields data ts c) db.contents
        ({ db with contents := cs }, .ok)
      | none => (db, .serverError)
    | none =>
      let cs := replaceFirst (ownedBy cid uid) (applyFields data c.scheduled_for c) db.contents
      ({ db with contents := cs }, .ok)

/-- Outcome of the platform connect/disconnect handlers. -/
inductive PlatformRes where
  | ok
  | invalidPlatform
deriving DecidableEq, Repr

/-- `connect_platform` handler (`app.py` lines 198-217): `data.get('token')`
is assigned verbatim to the column matching the path parameter; any other
platform name yields a 400 and no assignment. -/
def connect_platform (platform : String) (data : Payload) (u : User) :
    User × PlatformRes :=
  let token := pget data "token"
  if platform == "twitch" then ({ u with twitch_token := token }, .ok)
  else if platform == "twitter" then ({ u with twitter_token := token }, .ok)
  else if platform == "instagram" then ({ u with instagram_token := token }, .ok)
  else if platform == "discord" then ({ u with discord_token := token }, .ok)
  else (u, .invalidPlatform)

/-- `disconnect_platform` handler (`app.py` lines 219-235): sets the column
matching the path parameter to `None`; any other name yields a 400. -/
def disconnect_platform (platform : String) (u : User) : User × PlatformRes :=
  if platform == "twitch" then ({ u with twitch_token := none }, .ok)
  else if platform == "twitter" then ({ u with twitter_token := none }, .ok)
  else if platform == "instagram" then ({ u with instagram_token := none }, .ok)
  else if platform == "discord" then ({ u with discord_token := none }, .ok)
  else (u, .invalidPlatform)

/-- The `unique=True` constraint on `User.username`. -/
def UsernamesUnique (db : DB) : Prop :=
  db.users.Pairwise (fun u v => u.username ≠ v.username)

instance (db : DB) : Decidable (UsernamesUnique db) := by
  unfold UsernamesUnique
  infer_instance

/-- The closed set of valid platform path parameters. -/
def validPlatforms : List String := ["twitch", "twitter", "instagram", "discord"]

/-- A sample user for concrete instantiations. -/
def sampleUser : User :=
  { id := 1, username := "alice", email := "alice@example.com",
    password_hash := "pw" }

/-- C7: an unknown platform name yields InvalidPlatform with the user record
(hence all four token fields) unchanged; each of the four valid names stores
`data.get('token')` verbatim into exactly that platform's field. -/
theorem connect_platform_closed_set (platform : String) (data : Payload)
    (u : User) :
    (platform ∉ validPlatforms →
      connect_platform platform data u = (u, .invalidPlatform)) ∧
    (platform = "twitch" →
      connect_platform platform data u =
        ({ u with twitch_token := pget data "token" }, .ok)) ∧
    (platform = "twitter" →
      connect_platform platform data u =
        ({ u with twitter_token := pget data "token" }, .ok)) ∧
    (platform = "instagram" →
      connect_platform platform data u =
        ({ u with instagram_token := pget data "token" }, .ok)) ∧
    (platform = "discord" →
      connect_platform platform data u =
        ({ u with discord_token := pget data "token" }, .ok)) := by
  refine ⟨?_, ?_, ?_, ?_, ?_⟩ <;> intro h
  · simp only [validPlatforms, List.mem_cons, List.not_mem_nil] at h
    push_neg at h
    obtain ⟨h1, h2, h3, h4, -⟩ := h
    simp [connect_platform, h1, h2, h3, h4]
  all_goals subst h; simp [connect_platform]

/-- Witness for C7 at the concrete platform name "myspace". -/
theorem connect_platform_closed_set_witness :
    "myspace" ∉ validPlatforms ∧
    connect_platform "myspace" [("token", "x")] sampleUser =
      (sampleUser, .invalidPlatform) :=
  ⟨by decide,
    (connect_platform_closed_set "myspace" [("token", "x")] sampleUser).1
      (by decide)⟩

/-- C8: for each valid platform, connecting with a token makes the profile
flag read true exactly when the token is a non-empty string, and a
subsequent disconnect makes the flag read false. -/
theorem connect_disconnect_profile_roundtrip (p tok : String) (u : User)
    (hp : p ∈ validPlatforms) :
    (platformFlag (get_profile (connect_platform p [("token", tok)] u).1) p
        = true ↔ tok ≠ "") ∧
    platformFlag
      (get_profile
        (disconnect_platform p (connect_platform p [("token", tok)] u).1).1) p
      = false := by
  simp only [validPlatforms, List.mem_cons, List.not_mem_nil, or_false] at hp
  rcases hp with rfl | rfl | rfl | rfl <;>
    simp [connect_platform, disconnect_platform, get_profile, platformFlag,
      pyBool, pget]

/-- Witness for C8 at platform "twitch" and token "tok123". -/
theorem connect_disconnect_profile_roundtrip_witness :
    "twitch" ∈ validPlatforms ∧
    ((platformFlag
        (get_profile (connect_platform "twitch" [("token", "tok123")]
          sampleUser).1) "twitch" = true ↔ "tok123" ≠ "") ∧
      platformFlag
        (get_profile
          (disconnect_platform "twitch"
            (connect_platform "twitch" [("token", "tok123")] sampleUser).1).1)
        "twitch" = false) :=
  ⟨by decide,
    connect_disconnect_profile_roundtrip "twitch" "tok123" sampleUser
      (by decide)⟩

/-- C10: a connect request whose body lacks a `token` key behaves exactly as
a disconnect: it succeeds, stores `None` in the platform's token field, and
the subsequent profile flag reads false. -/
theorem connect_missing_token_eq_disconnect (p : String) (data : Payload)
    (u : User) (htok : pget data "token" = none) (hp : p ∈ validPlatforms) :
    connect_platform p data u = disconnect_platform p u ∧
    (connect_platform p data u).2 = .ok ∧
    platformFlag (get_profile (connect_platform p data u).1) p = false := by
  simp only [validPlatforms, List.mem_cons, List.not_mem_nil, or_false] at hp
  rcases hp with rfl | rfl | rfl | rfl <;>
    simp [connect_platform, disconnect_platform, get_profile, platformFlag,
      pyBool, htok]

/-- Witness for C10 at platform "twitch" and an empty body. -/
theorem connect_missing_token_eq_disconnect_witness :
    pget [] "token" = none ∧ "twitch" ∈ validPlatforms ∧
    (connect_platform "twitch" [] sampleUser =
        disconnect_platform "twitch" sampleUser ∧
      (connect_platform "twitch" [] sampleUser).2 = .ok ∧
      platformFlag (get_profile (connect_platform "twitch" [] sampleUser).1)
        "twitch" = false) :=
  ⟨by decide, by decide,
    connect_missing_token_eq_disconnect "twitch" [] sampleUser (by decide)
      (by decide)⟩

/-- With pairwise-distinct usernames, any stored user carrying the searched
username is the one `.first()` returns. -/
theorem find_username_unique {l : List User} {n : String} {user : User}
    (hu : l.Pairwise (fun u v => u.username ≠ v.username))
    (hf : l.find? (fun u => u.username == n) = some user)
    {u : User} (hm : u ∈ l) (hn : u.username = n) : u = user := by
  induction l with
  | nil => simp at hf
  | cons x xs ih =>
    rw [List.find?_cons] at hf
    rcases List.pairwise_cons.mp hu with ⟨hx, hxs⟩
    by_cases hxn : x.username == n
    · simp only [hxn] at hf
      cases hf
      rcases List.mem_cons.mp hm with rfl | hmem
      · rfl
      · exact absurd (((beq_iff_eq).mp hxn).trans hn.symm) (hx u hmem)
    · rw [Bool.not_eq_true] at hxn
      simp only [hxn] at hf
      rcases List.mem_cons.mp hm with rfl | hmem
      · exact absurd hn (by simpa using hxn)
      · exact ih hxs hf hmem

/-- A one-user store for concrete instantiations. -/
def sampleDB : DB := { users := [sampleUser] }

/-- C2: under the unique-username constraint, login succeeds (binding the
session to that user's id) iff some stored user matches the request's
username and its stored credential equals the request's password exactly;
otherwise it returns Unauthorized (`none`) and no session is established. -/
theorem login_exact_match (db : DB) (username password : String)
    (hu : UsernamesUnique db) :
    ((∃ uid, login username password db = some uid) ↔
      ∃ u ∈ db.users, u.username = username ∧ u.password_hash = password) ∧
    (∀ uid, login username password db = some uid →
      ∃ u ∈ db.users, u.username = username ∧ u.password_hash = password ∧
        uid = u.id) := by
  cases hf : db.users.find? (fun u => u.username == username) with
  | none =>
    have hall := List.find?_eq_none.mp hf
    constructor
    · constructor
      · rintro ⟨uid, h⟩
        simp [login, hf] at h
      · rintro ⟨u, hm, hn, -⟩
        exact absurd (by simpa using hn) (by simpa using hall u hm)
    · intro uid h
      simp [login, hf] at h
  | some user =>
    have husr : user.username = username := by
      simpa using List.find?_some hf
    have hmem := List.mem_of_find?_eq_some hf
    by_cases hpw : user.password_hash == password
    · constructor
      · exact ⟨fun _ => ⟨user, hmem, husr, beq_iff_eq.mp hpw⟩,
          fun _ => ⟨user.id, by simp [login, hf, hpw]⟩⟩
      · intro uid h
        simp [login, hf, hpw] at h
        exact ⟨user, hmem, husr, beq_iff_eq.mp hpw, h.symm⟩
    · constructor
      · constructor
        · rintro ⟨uid, h⟩
          simp [login, hf, hpw] at h
        · rintro ⟨u, hm, hn, hp⟩
          have : u = user := find_username_unique hu hf hm hn
          subst this
          exact absurd (beq_iff_eq.mpr hp) hpw
      · intro uid h
        simp [login, hf, hpw] at h

/-- Witness for C2 on a one-user store with the correct credentials. -/
theorem login_exact_match_witness :
    UsernamesUnique sampleDB ∧
    (((∃ uid, login "alice" "pw" sampleDB = some uid) ↔
        ∃ u ∈ sampleDB.users,
          u.username = "alice" ∧ u.password_hash = "pw") ∧
      (∀ uid, login "alice" "pw" sampleDB = some uid →
        ∃ u ∈ sampleDB.users,
          u.username = "alice" ∧ u.password_hash = "pw" ∧ uid = u.id)) :=
  ⟨by decide, login_exact_match sampleDB "alice" "pw" (by decide)⟩

/-- The user row `register` inserts on success. -/
def freshUser (username email password : String) (now : Nat) (db : DB) : User :=
  { id := db.nextUserId, username := username, email := email,
    password_hash := password, created_at := now }

/-- C3: registration conflicts (without touching the store) exactly when the
username or the email is already taken; otherwise it appends one user whose
credential is the given password verbatim; and registering the same username
twice conflicts on the second call, leaving exactly one user with that
username. -/
theorem register_spec (db : DB) (username email password : String)
    (now : Nat) :
    ((∃ u ∈ db.users, u.username = username ∨ u.email = email) →
      (register username email password now db).1 = db ∧
      (register username email password now db).2 ≠ .ok) ∧
    ((∀ u ∈ db.users, u.username ≠ username ∧ u.email ≠ email) →
      register username email password now db =
        ({ db with users := db.users ++ [freshUser username email password now db],
                   nextUserId := db.nextUserId + 1 }, .ok)) ∧
    ((∀ u ∈ db.users, u.username ≠ username ∧ u.email ≠ email) →
      ∀ email2 pw2 now2,
        (register username email2 pw2 now2
            (register username email password now db).1).2 = .usernameExists ∧
        (register username email2 pw2 now2
            (register username email password now db).1).1.users.countP
          (fun u => u.username == username) = 1) := by
  refine ⟨?_, ?_, ?_⟩
  · rintro ⟨u, hm, hcase⟩
    cases hf1 : db.users.find? (fun u => u.username == username) with
    | some w => constructor <;> simp [register, hf1]
    | none =>
      cases hf2 : db.users.find? (fun u => u.email == email) with
      | some w => constructor <;> simp [register, hf1, hf2]
      | none =>
        exfalso
        rcases hcase with h | h
        · exact (List.find?_eq_none.mp hf1 u hm) (by simpa using h)
        · exact (List.find?_eq_none.mp hf2 u hm) (by simpa using h)
  · intro h
    have hf1 : db.users.find? (fun u => u.username == username) = none :=
      List.find?_eq_none.mpr fun v hv => by simpa using (h v hv).1
    have hf2 : db.users.find? (fun u => u.email == email) = none :=
      List.find?_eq_none.mpr fun v hv => by simpa using (h v hv).2
    simp [register, hf1, hf2, freshUser]
  · intro h email2 pw2 now2
    have hf1 : db.users.find? (fun u => u.username == username) = none :=
      List.find?_eq_none.mpr fun v hv => by simpa using (h v hv).1
    have hf2 : db.users.find? (fun u => u.email == email) = none :=
      List.find?_eq_none.mpr fun v hv => by simpa using (h v hv).2
    have hcount : db.users.countP (fun u => u.username == username) = 0 :=
      List.countP_eq_zero.mpr fun v hv => by simpa using (h v hv).1
    have hreg1 : register username email password now db =
        ({ db with users := db.users ++ [freshUser username email password now db],
                   nextUserId := db.nextUserId + 1 }, .ok) := by
      simp [register, hf1, hf2, freshUser]
    rw [hreg1]
    have hf1' : ((db.users ++ [freshUser username email password now db]).find?
        (fun u => u.username == username)).isSome = true := by
      rw [List.find?_isSome]
      exact ⟨freshUser username email password now db, by simp, by simp [freshUser]⟩
    constructor
    · simp [register, freshUser]
    · simp [register, List.countP_append, hcount, freshUser]

/-- The empty store. -/
def emptyDB : DB := {}

/-- Witness for C3 on the empty store. -/
theorem register_spec_witness :
    (∀ u ∈ emptyDB.users,
        u.username ≠ "alice" ∧ u.email ≠ "alice@example.com") ∧
    (∀ email2 pw2 now2,
      (register "alice" email2 pw2 now2
          (register "alice" "alice@example.com" "pw" 0 emptyDB).1).2 =
        .usernameExists ∧
      (register "alice" email2 pw2 now2
          (register "alice" "alice@example.com" "pw" 0 emptyDB).1).1.users.countP
        (fun u => u.username == "alice") = 1) := by
  constructor
  · intro u hu
    simp [emptyDB] at hu
  · exact (register_spec emptyDB "alice" "alice@example.com" "pw" 0).2.2
      (by intro u hu; simp [emptyDB] at hu)

/-- C6: a create request missing a required field, or whose `scheduled_for`
does not parse, dies with the uncaught exception (a generic server error)
and inserts nothing: the store comes back unchanged. -/
theorem create_content_invalid_fails (parse : String → Option Int) (uid : Nat)
    (data : Payload) (now : Nat) (db : DB)
    (h : pget data "title" = none ∨ pget data "content" = none ∨
      pget data "scheduled_for" = none ∨
      ∃ sf, pget data "scheduled_for" = some sf ∧ parse sf = none) :
    create_content parse uid data now db = (db, .serverError) := by
  cases ht : pget data "title" with
  | none => simp [create_content, ht]
  | some t =>
    cases hc : pget data "content" with
    | none => simp [create_content, ht, hc]
    | some c =>
      cases hs : pget data "scheduled_for" with
      | none => simp [create_content, ht, hc, hs]
      | some sf =>
        rcases h with h | h | h | ⟨sf2, hsf2, hp⟩
        · rw [ht] at h; cases h
        · rw [hc] at h; cases h
        · rw [hs] at h; cases h
        · rw [hs] at hsf2
          cases hsf2
          simp [create_content, ht, hc, hs, hp]

/-- Witness for C6: a request with no `scheduled_for` key. -/
theorem create_content_invalid_fails_witness :
    (pget [("title", "t"), ("content", "c")] "scheduled_for" = none) ∧
    create_content (fun _ => some 0) 1 [("title", "t"), ("content", "c")] 0
      emptyDB = (emptyDB, .serverError) :=
  ⟨by decide,
    create_content_invalid_fails (fun _ => some 0) 1
      [("title", "t"), ("content", "c")] 0 emptyDB
      (Or.inr (Or.inr (Or.inl (by decide))))⟩

/-- The row `create_content` inserts: `data.get` defaults for the optional
columns, model defaults (`status := "pending"`) for the untouched ones. -/
def newRow (uid : Nat) (data : Payload) (now : Nat) (db : DB) (t c : String)
    (ts : Int) : ScheduledContent :=
  { id := db.nextContentId, title := t, content := c,
    content_type := (pget data "content_type").getD "text",
    platforms := (pget data "platforms").getD "[]",
    scheduled_for := ts,
    hashtags := pget data "hashtags",
    mentions := pget data "mentions",
    files := (pget data "files").getD "[]",
    status := "pending", user_id := uid, created_at := now }

/-- The conclusion of C5: a well-formed authenticated create appends exactly
one row carrying the stated column defaults and returns 201 with its fresh
id, and that id then shows up in the user's content list with status
"pending". -/
def CreateSucceeds (parse : String → Option Int) (uid : Nat) (data : Payload)
    (now : Nat) (db : DB) (t c : String) (ts : Int) : Prop :=
  (create_content parse uid data now db).2 = .created db.nextContentId ∧
  (create_content parse uid data now db).1.contents =
    db.contents ++ [newRow uid data now db t c ts] ∧
  (newRow uid data now db t c ts).status = "pending" ∧
  (newRow uid data now db t c ts).user_id = uid ∧
  (pget data "content_type" = none →
    (newRow uid data now db t c ts).content_type = "text") ∧
  (pget data "platforms" = none →
    (newRow uid data now db t c ts).platforms = "[]") ∧
  (pget data "files" = none → (newRow uid data now db t c ts).files = "[]") ∧
  ∃ r ∈ get_content uid (create_content parse uid data now db).1,
    r.id = db.nextContentId ∧ r.status = "pending"

/-- C5: with `title`, `content` present and `scheduled_for` parsing, the
create handler succeeds as described by `CreateSucceeds`. -/
theorem create_content_defaults (parse : String → Option Int) (uid : Nat)
    (data : Payload) (now : Nat) (db : DB) (t c sf : String) (ts : Int)
    (ht : pget data "title" = some t) (hc : pget data "content" = some c)
    (hs : pget data "scheduled_for" = some sf) (hts : parse sf = some ts) :
    CreateSucceeds parse uid data now db t c ts := by
  have hcc : create_content parse uid data now db =
      ({ db with contents := db.contents ++ [newRow uid data now db t c ts],
                 nextContentId := db.nextContentId + 1 },
        .created db.nextContentId) := by
    simp [create_content, ht, hc, hs, hts, newRow]
  refine ⟨by rw [hcc], by rw [hcc], rfl, rfl,
    fun h => by simp [newRow, h], fun h => by simp [newRow, h],
    fun h => by simp [newRow, h], ?_⟩
  rw [hcc]
  refine ⟨newRow uid data now db t c ts, ?_, rfl, rfl⟩
  unfold get_content
  rw [List.mem_mergeSort]
  exact List.mem_filter.mpr ⟨by simp, by simp [newRow]⟩

/-- Witness for C5 with the spec's end-to-end request body. -/
theorem create_content_defaults_witness :
    (pget [("title", "t"), ("content", "c"),
        ("scheduled_for", "2025-01-01T00:00:00")] "title" = some "t") ∧
    CreateSucceeds (fun _ => some 0) 1
      [("title", "t"), ("content", "c"),
        ("scheduled_for", "2025-01-01T00:00:00")] 0 emptyDB "t" "c" 0 :=
  ⟨by decide,
    create_content_defaults (fun _ => some 0) 1
      [("title", "t"), ("content", "c"),
        ("scheduled_for", "2025-01-01T00:00:00")] 0 emptyDB
      "t" "c" "2025-01-01T00:00:00" 0 (by decide) (by decide) (by decide) rfl⟩

/-- Replacing the element `.first()` found by one that agrees under `f`
leaves the `f`-image of the table unchanged. -/
theorem map_replaceFirst_eq {α β : Type} {p : α → Bool} {f : α → β} {a c : α}
    {l : List α} (h : l.find? p = some c) (hf : f a = f c) :
    (replaceFirst p a l).map f = l.map f := by
  induction l with
  | nil => simp at h
  | cons x xs ih =>
    rw [List.find?_cons] at h
    by_cases hx : p x
    · simp only [hx] at h
      cases h
      simp [replaceFirst, hx, hf]
    · rw [Bool.not_eq_true] at hx
      simp only [hx] at h
      simp [replaceFirst, hx, ih h]

/-- The columns `update_content` never assigns. -/
def protectedFields (c : ScheduledContent) : Nat × Nat × String × Nat :=
  (c.id, c.user_id, c.status, c.created_at)

/-- C9: no update request — whatever keys its payload carries — changes any
row's `id`, `user_id`, `status` or `created_at`: the projection of the whole
table to those columns is invariant under `update_content`. -/
theorem update_content_preserves_protected (parse : String → Option Int)
    (uid cid : Nat) (data : Payload) (db : DB) :
    (update_content parse uid cid data db).1.contents.map protectedFields =
      db.contents.map protectedFields := by
  unfold update_content
  cases hf : db.contents.find? (ownedBy cid uid) with
  | none => simp [hf]
  | some c =>
    cases hs : pget data "scheduled_for" with
    | some sf =>
      cases hp : parse sf with
      | some ts =>
        simp only [hf, hs, hp]
        exact map_replaceFirst_eq hf
          (rfl : protectedFields (applyFields data ts c) = protectedFields c)
      | none => simp [hf, hs, hp]
    | none =>
      simp only [hf, hs]
      exact map_replaceFirst_eq hf
        (rfl : protectedFields (applyFields data c.scheduled_for c) =
          protectedFields c)

/-- The post-state of a successful update: the row `.first()` found,
mutated, all other rows untouched. -/
def updatedDB (db : DB) (uid cid : Nat) (c' : ScheduledContent) : DB :=
  { db with contents := replaceFirst (ownedBy cid uid) c' db.contents }

/-- C4: updating a row the authenticated user does not own (or that does not
exist) returns NotFound with the store untouched; on an owned row each
column is overwritten exactly when its key is present in the payload and
retains its prior value when absent, and only the found row is replaced. -/
theorem update_content_partial_update (parse : String → Option Int)
    (uid cid : Nat) (data : Payload) (db : DB) :
    ((∀ c ∈ db.contents, ¬(c.id = cid ∧ c.user_id = uid)) →
      update_content parse uid cid data db = (db, .notFound)) ∧
    (∀ (ts : Int) (c : ScheduledContent),
      (pget data "title" = none → (applyFields data ts c).title = c.title) ∧
      (∀ v, pget data "title" = some v → (applyFields data ts c).title = v) ∧
      (pget data "content" = none →
        (applyFields data ts c).content = c.content) ∧
      (∀ v, pget data "content" = some v →
        (applyFields data ts c).content = v) ∧
      (pget data "content_type" = none →
        (applyFields data ts c).content_type = c.content_type) ∧
      (∀ v, pget data "content_type" = some v →
        (applyFields data ts c).content_type = v) ∧
      (pget data "platforms" = none →
        (applyFields data ts c).platforms = c.platforms) ∧
      (∀ v, pget data "platforms" = some v →
        (applyFields data ts c).platforms = v) ∧
      (pget data "hashtags" = none →
        (applyFields data ts c).hashtags = c.hashtags) ∧
      (∀ v, pget data "hashtags" = some v →
        (applyFields data ts c).hashtags = some v) ∧
      (pget data "mentions" = none →
        (applyFields data ts c).mentions = c.mentions) ∧
      (∀ v, pget data "mentions" = some v →
        (applyFields data ts c).mentions = some v) ∧
      (pget data "files" = none → (applyFields data ts c).files = c.files) ∧
      (∀ v, pget data "files" = some v → (applyFields data ts c).files = v)) ∧
    (∀ c, db.contents.find? (ownedBy cid uid) = some c →
      pget data "scheduled_for" = none →
      update_content parse uid cid data db =
        (updatedDB db uid cid (applyFields data c.scheduled_for c), .ok) ∧
      (applyFields data c.scheduled_for c).scheduled_for = c.scheduled_for) ∧
    (∀ c sf ts, db.contents.find? (ownedBy cid uid) = some c →
      pget data "scheduled_for" = some sf → parse sf = some ts →
      update_content parse uid cid data db =
        (updatedDB db uid cid (applyFields data ts c), .ok)) := by
  refine ⟨?_, ?_, ?_, ?_⟩
  · intro h
    have hf : db.contents.find? (ownedBy cid uid) = none :=
      List.find?_eq_none.mpr fun x hx => by
        have := h x hx
        simp [ownedBy]
        intro h1
        exact fun h2 => this ⟨h1, h2⟩
    simp [update_content, hf]
  · intro ts c
    repeat' apply And.intro
    all_goals
      first
      | (intro h; simp [applyFields, h])
      | (intro v h; simp [applyFields, h])
  · intro c hf hs
    exact ⟨by simp [update_content, hf, hs, updatedDB], by simp [applyFields]⟩
  · intro c sf ts hf hs hp
    simp [update_content, hf, hs, hp, updatedDB]

/-- A content row and store for concrete instantiations. -/
def sampleRow : ScheduledContent :=
  { id := 1, title := "old", content := "body", scheduled_for := 5,
    user_id := 1 }

/-- A one-row content store for concrete instantiations. -/
def sampleContentDB : DB := { contents := [sampleRow] }

/-- Witness for C4: a `{title: "new"}` payload on an owned row. -/
theorem update_content_partial_update_witness :
    sampleContentDB.contents.find? (ownedBy 1 1) = some sampleRow ∧
    pget [("title", "new")] "scheduled_for" = none ∧
    (update_content (fun _ => some 0) 1 1 [("title", "new")] sampleContentDB =
        (updatedDB sampleContentDB 1 1
          (applyFields [("title", "new")] sampleRow.scheduled_for sampleRow),
          .ok) ∧
      (applyFields [("title", "new")] sampleRow.scheduled_for
          sampleRow).scheduled_for = sampleRow.scheduled_for) :=
  ⟨by decide, by decide,
    (update_content_partial_update (fun _ => some 0) 1 1 [("title", "new")]
        sampleContentDB).2.2.1 sampleRow (by decide) (by decide)⟩

/-- C1: the content list of authenticated user A contains only rows A owns —
never a row of any distinct user B — and is ordered by `scheduled_for`
descending. -/
theorem get_content_owned_and_sorted (db : DB) (A B : Nat) (hAB : A ≠ B) :
    (∀ c ∈ get_content A db, c.user_id = A ∧ c.user_id ≠ B) ∧
    (get_content A db).Pairwise
      (fun a b => b.scheduled_for ≤ a.scheduled_for) := by
  constructor
  · intro c hc
    unfold get_content at hc
    have hmem := List.mem_mergeSort.mp hc
    have huid : c.user_id = A := by
      simpa using (List.mem_filter.mp hmem).2
    exact ⟨huid, by rw [huid]; exact hAB⟩
  · have htrans : ∀ a b c : ScheduledContent,
        contentDesc a b = true → contentDesc b c = true →
          contentDesc a c = true := by
      intro a b c h1 h2
      simp only [contentDesc, decide_eq_true_eq] at *
      omega
    have htotal : ∀ a b : ScheduledContent,
        (contentDesc a b || contentDesc b a) = true := by
      intro a b
      simp only [contentDesc, Bool.or_eq_true, decide_eq_true_eq]
      omega
    have hs := List.sorted_mergeSort htrans htotal
      (db.contents.filter (fun c => c.user_id == A))
    unfold get_content
    exact hs.imp fun h => by
      simpa only [contentDesc, decide_eq_true_eq] using h

/-- Witness for C1 with users 1 and 2 on a one-row store. -/
theorem get_content_owned_and_sorted_witness :
    (1 : Nat) ≠ 2 ∧
    ((∀ c ∈ get_content 1 sampleContentDB, c.user_id = 1 ∧ c.user_id ≠ 2) ∧
      (get_content 1 sampleContentDB).Pairwise
        (fun a b => b.scheduled_for ≤ a.scheduled_for)) :=
  ⟨by decide, get_content_owned_and_sorted sampleContentDB 1 2 (by decide)⟩

end StreamSchedule
